import Mathlib

/-!
Verification of the `ObjectStoreLogger` upload pipeline
(`composer/loggers/object_store_logger.py`).

The Python module is shallowly embedded: the external object-store
provider is modelled by oracles (the outcome of each upload attempt,
the outcome of the object-size query), real time (`time.sleep`) is
recorded as the list of requested sleep durations, and the worker's
side effects (`os.remove`, `file_queue.task_done`) are recorded as
boolean fields of the outcome record.
-/

namespace ObjectStoreLogger

/-- The exception classes caught by the upload retry loop of
`_upload_worker`: `except (LibcloudError, ProtocolError, TimeoutError,
ConnectionError)`.  A `LibcloudError` carries its `str(e)` message,
which is all the surrounding code inspects. -/
inductive UploadErr where
  | libcloud (msg : String)
  | protocol
  | timeout
  | connection
deriving Repr, DecidableEq

/-- The designated transient status codes, exactly the tuple
`("408", "409", "425", "429", "500", "503", '504')` in the source. -/
def transientCodes : List String :=
  ["408", "409", "425", "429", "500", "503", "504"]

/-- Python's substring test `x in s`, on the character lists. -/
def containsSub (s x : String) : Bool :=
  decide (x.toList <:+: s.toList)

/-- `is_transient_error = any(x in str(e) for x in (...))` from the
source: the message of a `LibcloudError` contains one of the designated
status-code strings. -/
def is_transient_error (msg : String) : Bool :=
  transientCodes.any (fun x => containsSub msg x)

/-- Whether the `except` handler re-raises the error at once, before
the retry counter is consulted: this happens exactly for a
`LibcloudError` whose message is not classified transient
(`if isinstance(e, LibcloudError): if not is_transient_error: raise e`). -/
def raisesImmediately : UploadErr → Bool
  | .libcloud msg => !(is_transient_error msg)
  | .protocol => false
  | .timeout => false
  | .connection => false

/-- Observable outcome of the retry loop around `provider.upload_object`:
the final result, how many times `upload_object` was called, the
`time.sleep` durations requested (in seconds, in order), and whether
`os.remove(file_path_to_upload)` and `file_queue.task_done()` ran. -/
structure RetryOutcome where
  result : Except UploadErr Unit
  uploadCalls : Nat
  sleeps : List Nat
  removedFile : Bool
  ackedTask : Bool
deriving Repr

/-- The `while True` retry loop of `_upload_worker`, lines 355-383.
`attempt i` is the outcome of the `i`-th call to
`provider.upload_object` (`none` = success).  `retry_counter` is the
source's variable of the same name; along any actual execution it also
equals the index of the current attempt, so it doubles as the oracle
index.  `retriesLeft` is `4 - retry_counter`, so the source's guard
`retry_counter < 4` is `retriesLeft ≠ 0`; it is the structural
recursion argument.  On a retry the source sets
`retry_counter += 1` and sleeps `2**(retry_counter - 1)` seconds,
i.e. `2 ^ retry_counter` for the pre-increment value used here. -/
def uploadLoop (attempt : Nat → Option UploadErr) (retry_counter : Nat)
    (retriesLeft : Nat) (sleepsAcc : List Nat) : RetryOutcome :=
  match attempt retry_counter with
  | none =>
      { result := .ok (), uploadCalls := retry_counter + 1, sleeps := sleepsAcc,
        removedFile := true, ackedTask := true }
  | some e =>
      if raisesImmediately e then
        { result := .error e, uploadCalls := retry_counter + 1, sleeps := sleepsAcc,
          removedFile := false, ackedTask := false }
      else
        match retriesLeft with
        | 0 =>
            { result := .error e, uploadCalls := retry_counter + 1, sleeps := sleepsAcc,
              removedFile := false, ackedTask := false }
        | r + 1 =>
            uploadLoop attempt (retry_counter + 1) r (sleepsAcc ++ [2 ^ retry_counter])

/-- The retry loop as entered by `_upload_worker`: `retry_counter = 0`,
so four retries remain and no sleep has been requested yet. -/
def uploadWithRetry (attempt : Nat → Option UploadErr) : RetryOutcome :=
  uploadLoop attempt 0 4 []

/-- Outcome of `provider.get_object_size(object_name)` as the worker
branches on it: either the call raises `ObjectDoesNotExistError`
(`notFound`) or it returns a size (`found`).  Any other exception
propagates out of the worker and is outside this model. -/
inductive ExistCheck where
  | notFound
  | found (size : Nat)
deriving Repr, DecidableEq

/-- A fatal error escaping `_upload_worker` while processing one job:
the `FileExistsError` of the overwrite check, or an upload error that
the retry loop re-raised. -/
inductive WorkerErr where
  | fileExists
  | upload (e : UploadErr)
deriving Repr, DecidableEq

/-- Observable outcome of processing one dequeued job
(`_upload_worker`, lines 341-383): whether `get_object_size` was
called, the upload-call count and sleeps, the result, and whether the
staged file was removed and the job acknowledged. -/
structure JobOutcome where
  existenceChecked : Bool
  uploadCalls : Nat
  sleeps : List Nat
  result : Except WorkerErr Unit
  removedFile : Bool
  ackedTask : Bool
deriving Repr

/-- Processing of a single dequeued job `(file_path, object_name,
overwrite)`.  `sizeQuery` is the outcome `provider.get_object_size`
would report for this object; `attempt` is the upload oracle.  With
`overwrite = False` a `found` object raises `FileExistsError` before
any upload; otherwise (and always when `overwrite = True`, where the
check is skipped) the retry loop runs. -/
def processJob (sizeQuery : ExistCheck) (attempt : Nat → Option UploadErr)
    (overwrite : Bool) : JobOutcome :=
  if overwrite = false then
    match sizeQuery with
    | .found _ =>
        { existenceChecked := true, uploadCalls := 0, sleeps := [],
          result := .error .fileExists, removedFile := false, ackedTask := false }
    | .notFound =>
        let r := uploadWithRetry attempt
        { existenceChecked := true, uploadCalls := r.uploadCalls, sleeps := r.sleeps,
          result := r.result.mapError .upload, removedFile := r.removedFile,
          ackedTask := r.ackedTask }
  else
    let r := uploadWithRetry attempt
    { existenceChecked := false, uploadCalls := r.uploadCalls, sleeps := r.sleeps,
      result := r.result.mapError .upload, removedFile := r.removedFile,
      ackedTask := r.ackedTask }

/-- An upload job as enqueued on `self._file_upload_queue`: the tuple
`(copied_path, object_name, overwrite)`. -/
structure Job where
  filePath : String
  objectName : String
  overwrite : Bool
deriving Repr, DecidableEq

/-- What one iteration of the worker's polling loop decides to do,
from the dequeue result and the shutdown event (lines 333-340):
`file_queue.get(block=True, timeout=0.5)` raises `queue.Empty`
(`dequeued = none`) or yields a job. -/
inductive PollAction where
  | terminate
  | keepPolling
  | runJob (j : Job)
deriving Repr, DecidableEq

/-- The head of the worker loop: on `queue.Empty`, `break` if
`is_finished.is_set()` else `continue`; on a job, process it. -/
def pollStep (dequeued : Option Job) (isFinishedSet : Bool) : PollAction :=
  match dequeued with
  | none => if isFinishedSet then .terminate else .keepPolling
  | some j => .runJob j

/-- One queued job together with the provider behaviour it will meet:
its overwrite flag, the object-size query outcome, and the upload
oracle for its retry loop. -/
structure JobSpec where
  sizeQuery : ExistCheck
  attempt : Nat → Option UploadErr
  overwrite : Bool

/-- Processing of one `JobSpec` by the worker. -/
def processJobSpec (j : JobSpec) : JobOutcome :=
  processJob j.sizeQuery j.attempt j.overwrite

/-- Result of one worker draining the queue after the shutdown signal
is set: either every queued job was processed and the worker exited
cleanly, or a fatal error terminated the worker, leaving the jobs
behind the failing one still in the queue. -/
inductive DrainResult where
  | drained (outcomes : List JobOutcome)
  | crashed (okOutcomes : List JobOutcome) (failed : JobOutcome) (remaining : List JobSpec)

/-- The worker loop after `post_close` has set `self._finished`: jobs
are dequeued in FIFO order and processed until the queue is empty
(clean exit, the `break` of line 338) or a fatal error propagates out
of the loop, abandoning the remaining jobs. -/
def drainLoop : List JobSpec → DrainResult
  | [] => .drained []
  | j :: rest =>
    let o := processJobSpec j
    match o.result with
    | .ok _ =>
      match drainLoop rest with
      | .drained outs => .drained (o :: outs)
      | .crashed oks f rem => .crashed (o :: oks) f rem
    | .error _ => .crashed [] o rest

/-- The claim that no enqueued job is silently dropped by the drain:
either the drain completes, or nothing was left in the queue when the
worker died. -/
def noJobSilentlyDropped (jobs : List JobSpec) : Bool :=
  match drainLoop jobs with
  | .drained _ => true
  | .crashed _ _ remaining => remaining.isEmpty

/-- The distributed-training ranks that `_format_object_name` passes
to `self.object_name_format.format(...)`. -/
structure DistInfo where
  rank : Nat
  local_rank : Nat
  world_size : Nat
  local_world_size : Nat
  node_rank : Nat
deriving Repr, DecidableEq

/-- Python's `s.lstrip('/')`: drop every leading `'/'` character. -/
def lstripSlashes (s : String) : String :=
  String.mk (s.toList.dropWhile (fun c => c = '/'))

/-- The body of `_format_object_name` once the run name is known:
substitute each recognised format variable into
`self.object_name_format` and strip leading slashes
(`key_name.lstrip(chr(47))`).  Python's `str.format` is modelled as
textual substitution of the recognised placeholders. -/
def formatKeyName (object_name_format : String) (d : DistInfo)
    (artifact_name run_name : String) : String :=
  let key_name :=
    ((((((object_name_format.replace "{rank}" (toString d.rank)).replace
      "{local_rank}" (toString d.local_rank)).replace
      "{world_size}" (toString d.world_size)).replace
      "{local_world_size}" (toString d.local_world_size)).replace
      "{node_rank}" (toString d.node_rank)).replace
      "{artifact_name}" artifact_name).replace
      "{run_name}" run_name
  lstripSlashes key_name

/-- `_format_object_name`: raises `RuntimeError` when `self._run_name`
is still `None` (before `init`), otherwise formats the key name. -/
def _format_object_name (object_name_format : String) (d : DistInfo)
    (run_name : Option String) (artifact_name : String) : Except String String :=
  match run_name with
  | none => .error "The run name is not set. It should have been set on Event.INIT."
  | some rn => .ok (formatKeyName object_name_format d artifact_name rn)

/-- The provider identity read from
`self._object_store_provider_hparams`. -/
structure ProviderHparams where
  provider : String
  container : String
deriving Repr, DecidableEq

/-- `get_uri_for_artifact`: the identity `provider://container/`
followed by the formatted object name with leading slashes stripped
(`obj_name.lstrip(chr(47))`). -/
def get_uri_for_artifact (hp : ProviderHparams) (object_name_format : String)
    (d : DistInfo) (run_name : Option String) (artifact_name : String) :
    Except String String :=
  match _format_object_name object_name_format d run_name artifact_name with
  | .error msg => .error msg
  | .ok obj_name =>
      .ok (hp.provider ++ "://" ++ hp.container ++ "/" ++ lstripSlashes obj_name)

/-- The shared mutable state that `log_file_artifact` touches: the set
of staged files under `self._upload_staging_folder` and the contents of
`self._file_upload_queue`. -/
structure ControllerState where
  staged : List String
  queue : List Job
deriving Repr, DecidableEq

/-- `log_file_artifact`: if the `should_log_artifact` filter rejects
the artifact, nothing happens.  Otherwise the artifact is copied to
`os.path.join(self._upload_staging_folder, str(uuid.uuid4()))` — the
fresh name drawn from `uuid.uuid4()` is the `fresh` argument — after
`os.makedirs` on its parent, and the job triple is enqueued with
`put_nowait`.  The local copy and directory creation are modelled as
appending the staged path; their I/O errors are outside the model. -/
def log_file_artifact (should_log : Bool) (upload_staging_folder fresh : String)
    (object_name_format : String) (d : DistInfo) (run_name : Option String)
    (artifact_name : String) (overwrite : Bool) (st : ControllerState) :
    Except String ControllerState :=
  if should_log = false then .ok st
  else
    let copied_path := upload_staging_folder ++ "/" ++ fresh
    match _format_object_name object_name_format d run_name artifact_name with
    | .error msg => .error msg
    | .ok object_name =>
        .ok { staged := st.staged ++ [copied_path],
              queue := st.queue ++ [⟨copied_path, object_name, overwrite⟩] }

/-- `_check_workers`: iterate over `self._workers` and raise
`RuntimeError` at the first worker that is not alive.  A worker handle
is modelled by its `is_alive()` value. -/
def _check_workers : List Bool → Except String Unit
  | [] => .ok ()
  | alive :: rest =>
      if alive = false then .error "Upload worker crashed. Please check the logs."
      else _check_workers rest

/-- `batch_end` discards its arguments and runs `_check_workers`. -/
def batch_end (workersAlive : List Bool) : Except String Unit :=
  _check_workers workersAlive

/-- `epoch_end` discards its arguments and runs `_check_workers`. -/
def epoch_end (workersAlive : List Bool) : Except String Unit :=
  _check_workers workersAlive

/-- `_validate_credentials`: upload the probe object
`b"credentials_validated_successfully"` under `object_name_to_test` via
`upload_object_via_stream`.  `uploadResult` is the provider's outcome
(`none` = success); on success the container gains the object. -/
def _validate_credentials (uploadResult : Option UploadErr)
    (container : List String) (object_name_to_test : String) :
    Except UploadErr (List String) :=
  match uploadResult with
  | some e => .error e
  | none => .ok (container ++ [object_name_to_test])

/-- Errors escaping `init`. -/
inductive InitErr where
  | alreadyInitialized
  | provider (e : UploadErr)
deriving Repr, DecidableEq

/-- `init`: raises if `self._finished is not None` (already
initialized); otherwise records the run name, formats
`".credentials_validated_successfully"` through
`_format_object_name`, runs `_validate_credentials`, and only then
spawns `self._num_concurrent_uploads` workers.  The result is the pair
(number of workers spawned, container contents); a propagated
validation error means no worker was spawned. -/
def init (alreadyInitialized : Bool) (object_name_format : String) (d : DistInfo)
    (run_name : String) (num_concurrent_uploads : Nat)
    (uploadResult : Option UploadErr) (container : List String) :
    Except InitErr (Nat × List String) :=
  if alreadyInitialized then .error .alreadyInitialized
  else
    let object_name_to_test :=
      formatKeyName object_name_format d ".credentials_validated_successfully" run_name
    match _validate_credentials uploadResult container object_name_to_test with
    | .error e => .error (.provider e)
    | .ok container2 => .ok (num_concurrent_uploads, container2)

/-! ### Lemmas about the retry loop -/

/-- The number of `upload_object` calls made by the retry loop lies
between one more than the entry attempt index and one more than that
plus the remaining retries. -/
lemma uploadLoop_calls_bounds (attempt : Nat → Option UploadErr) :
    ∀ (left rc : Nat) (acc : List Nat),
      rc + 1 ≤ (uploadLoop attempt rc left acc).uploadCalls ∧
      (uploadLoop attempt rc left acc).uploadCalls ≤ rc + left + 1 := by
  intro left
  induction left with
  | zero =>
    intro rc acc
    unfold uploadLoop
    cases attempt rc with
    | none => simp
    | some e =>
      by_cases h : raisesImmediately e = true
      · simp [h]
      · rw [Bool.not_eq_true] at h
        simp [h]
  | succ r ih =>
    intro rc acc
    unfold uploadLoop
    cases attempt rc with
    | none => simp
    | some e =>
      by_cases h : raisesImmediately e = true
      · simp [h]
      · rw [Bool.not_eq_true] at h
        simp only [h, Bool.false_eq_true, if_false]
        obtain ⟨h1, h2⟩ := ih (rc + 1) (acc ++ [2 ^ rc])
        omega

/-- The staged file is removed, and the job acknowledged, exactly when
the retry loop ends in success. -/
lemma uploadLoop_removed_acked (attempt : Nat → Option UploadErr) :
    ∀ (left rc : Nat) (acc : List Nat),
      (uploadLoop attempt rc left acc).removedFile =
        (uploadLoop attempt rc left acc).result.isOk ∧
      (uploadLoop attempt rc left acc).ackedTask =
        (uploadLoop attempt rc left acc).result.isOk := by
  intro left
  induction left with
  | zero =>
    intro rc acc
    unfold uploadLoop
    cases attempt rc with
    | none => simp [Except.isOk, Except.toBool]
    | some e =>
      by_cases h : raisesImmediately e = true
      · simp [h, Except.isOk, Except.toBool]
      · rw [Bool.not_eq_true] at h
        simp [h, Except.isOk, Except.toBool]
  | succ r ih =>
    intro rc acc
    unfold uploadLoop
    cases attempt rc with
    | none => simp [Except.isOk, Except.toBool]
    | some e =>
      by_cases h : raisesImmediately e = true
      · simp [h, Except.isOk, Except.toBool]
      · rw [Bool.not_eq_true] at h
        simp only [h, Bool.false_eq_true, if_false]
        exact ih (rc + 1) (acc ++ [2 ^ rc])

/-- The sleeps requested by the retry loop extend the accumulator by
exactly `2 ^ k` for each attempt index `k` that was retried. -/
lemma uploadLoop_sleeps (attempt : Nat → Option UploadErr) :
    ∀ (left rc : Nat) (acc : List Nat),
      (uploadLoop attempt rc left acc).sleeps =
        acc ++ (List.range' rc ((uploadLoop attempt rc left acc).uploadCalls - 1 - rc)).map
          (fun k => 2 ^ k) := by
  intro left
  induction left with
  | zero =>
    intro rc acc
    unfold uploadLoop
    cases attempt rc with
    | none => simp
    | some e =>
      by_cases h : raisesImmediately e = true
      · simp [h]
      · rw [Bool.not_eq_true] at h
        simp [h]
  | succ r ih =>
    intro rc acc
    unfold uploadLoop
    cases attempt rc with
    | none => simp
    | some e =>
      by_cases h : raisesImmediately e = true
      · simp [h]
      · rw [Bool.not_eq_true] at h
        simp only [h, Bool.false_eq_true, if_false]
        obtain ⟨hlo, _⟩ := uploadLoop_calls_bounds attempt r (rc + 1) (acc ++ [2 ^ rc])
        rw [ih (rc + 1) (acc ++ [2 ^ rc]),
          show (uploadLoop attempt (rc + 1) r (acc ++ [2 ^ rc])).uploadCalls - 1 - rc =
            ((uploadLoop attempt (rc + 1) r (acc ++ [2 ^ rc])).uploadCalls - 1 - (rc + 1)) + 1
            from by omega,
          List.range'_succ]
        simp

/-- A convenient name for "this attempt fails and the handler does not
re-raise at once": a network error, or a provider error classified
transient. -/
def transientFailure (o : Option UploadErr) : Prop :=
  ∃ e, o = some e ∧ raisesImmediately e = false

/-! ### Claim theorems C1 and C2 -/

/-- C1: the retry loop makes at most 5 upload attempts; before retry
`k` (`k = 1, 2, 3, 4`) it sleeps `2 ^ (k - 1)` seconds, so the sleeps
are the prefix of `[1, 2, 4, 8]` of length one less than the number of
attempts made; a transient failure with retries remaining leads to
exactly one more attempt after the sleep; and when the first five
attempts all fail transiently the loop raises the fifth error as fatal
after the 5th attempt, with no further attempt. -/
theorem c1_transient_retry_backoff (attempt : Nat → Option UploadErr) :
    (uploadWithRetry attempt).uploadCalls ≤ 5 ∧
    (uploadWithRetry attempt).sleeps =
      (List.range ((uploadWithRetry attempt).uploadCalls - 1)).map (fun k => 2 ^ k) ∧
    (∀ rc r acc e, attempt rc = some e → raisesImmediately e = false →
      uploadLoop attempt rc (r + 1) acc =
        uploadLoop attempt (rc + 1) r (acc ++ [2 ^ rc])) ∧
    ((∀ i, i ≤ 4 → transientFailure (attempt i)) →
      ∃ e, attempt 4 = some e ∧
        uploadWithRetry attempt =
          { result := .error e, uploadCalls := 5, sleeps := [1, 2, 4, 8],
            removedFile := false, ackedTask := false }) := by
  refine ⟨?_, ?_, ?_, ?_⟩
  · have := uploadLoop_calls_bounds attempt 4 0 []
    unfold uploadWithRetry
    omega
  · have h := uploadLoop_sleeps attempt 4 0 []
    unfold uploadWithRetry
    rw [h]
    simp [List.range_eq_range']
  · intro rc r acc e he hr
    conv_lhs => unfold uploadLoop
    rw [he]
    simp [hr]
  · intro h
    obtain ⟨e0, he0, hr0⟩ := h 0 (by omega)
    obtain ⟨e1, he1, hr1⟩ := h 1 (by omega)
    obtain ⟨e2, he2, hr2⟩ := h 2 (by omega)
    obtain ⟨e3, he3, hr3⟩ := h 3 (by omega)
    obtain ⟨e4, he4, hr4⟩ := h 4 (by omega)
    refine ⟨e4, he4, ?_⟩
    unfold uploadWithRetry
    unfold uploadLoop
    rw [he0]
    simp only [hr0, Bool.false_eq_true, if_false]
    unfold uploadLoop
    rw [he1]
    simp only [hr1, Bool.false_eq_true, if_false]
    unfold uploadLoop
    rw [he2]
    simp only [hr2, Bool.false_eq_true, if_false]
    unfold uploadLoop
    rw [he3]
    simp only [hr3, Bool.false_eq_true, if_false]
    unfold uploadLoop
    rw [he4]
    simp only [hr4, Bool.false_eq_true, if_false]
    norm_num

/-- Witness for C1: with every attempt failing with a retriable
HTTP 500 provider error, the loop makes exactly 5 attempts, sleeps
1, 2, 4 and 8 seconds, and ends fatally. -/
theorem c1_transient_retry_backoff_witness :
    uploadWithRetry (fun _ => some (.libcloud "HTTP 500 Internal Server Error")) =
      { result := .error (.libcloud "HTTP 500 Internal Server Error"), uploadCalls := 5,
        sleeps := [1, 2, 4, 8], removedFile := false, ackedTask := false } := by
  have h := (c1_transient_retry_backoff
    (fun _ => some (.libcloud "HTTP 500 Internal Server Error"))).2.2.2
  obtain ⟨e, he, heq⟩ := h (fun i _ => ⟨.libcloud "HTTP 500 Internal Server Error",
    rfl, by decide⟩)
  obtain rfl : UploadErr.libcloud "HTTP 500 Internal Server Error" = e :=
    Option.some.inj he
  exact heq

/-- C2: a `LibcloudError` whose message contains none of the designated
transient status-code strings is re-raised at once: no additional
upload call, no sleep, no retry — whatever the retry budget and
whatever sleeps have already happened. -/
theorem c2_nontransient_immediate_fatal (attempt : Nat → Option UploadErr)
    (msg : String) (rc left : Nat) (acc : List Nat)
    (hmsg : attempt rc = some (.libcloud msg))
    (htrans : is_transient_error msg = false) :
    uploadLoop attempt rc left acc =
      { result := .error (.libcloud msg), uploadCalls := rc + 1, sleeps := acc,
        removedFile := false, ackedTask := false } := by
  unfold uploadLoop
  rw [hmsg]
  simp [raisesImmediately, htrans]

/-- Witness for C2: a 401 provider error on the very first attempt is
fatal immediately, with one upload call and no sleep. -/
theorem c2_nontransient_immediate_fatal_witness :
    uploadWithRetry (fun _ => some (.libcloud "401 Unauthorized")) =
      { result := .error (.libcloud "401 Unauthorized"), uploadCalls := 1,
        sleeps := [], removedFile := false, ackedTask := false } :=
  c2_nontransient_immediate_fatal (fun _ => some (.libcloud "401 Unauthorized"))
    "401 Unauthorized" 0 4 [] rfl (by decide)

/-! ### Claim theorems C3, C4 and C5 -/

/-- `Except.mapError` does not change whether a result is a success. -/
lemma isOk_mapError {ε ε2 α : Type} (f : ε → ε2) (r : Except ε α) :
    (r.mapError f).isOk = r.isOk := by
  cases r <;> rfl

/-- C3: with `overwrite = false` and the object found, the worker
raises the fatal already-exists error with zero upload calls; with
`overwrite = false` and the object not found, the existence check ran
and the upload proceeds (at least one upload call, exactly those of the
retry loop); with `overwrite = true` the existence check is skipped. -/
theorem c3_overwrite_existence_check (sz : ExistCheck)
    (attempt : Nat → Option UploadErr) :
    (∀ n, processJob (.found n) attempt false =
      { existenceChecked := true, uploadCalls := 0, sleeps := [],
        result := .error .fileExists, removedFile := false, ackedTask := false }) ∧
    ((processJob .notFound attempt false).existenceChecked = true ∧
      1 ≤ (processJob .notFound attempt false).uploadCalls ∧
      (processJob .notFound attempt false).uploadCalls =
        (uploadWithRetry attempt).uploadCalls) ∧
    (processJob sz attempt true).existenceChecked = false := by
  refine ⟨fun n => rfl, ⟨rfl, ?_, rfl⟩, rfl⟩
  have := uploadLoop_calls_bounds attempt 4 0 []
  show 1 ≤ (uploadWithRetry attempt).uploadCalls
  unfold uploadWithRetry
  omega

/-- Helper shared by the frame-effect results: the staged file is
removed, and the job acknowledged, exactly when processing the job
succeeded. -/
lemma processJob_removed_acked (sz : ExistCheck)
    (attempt : Nat → Option UploadErr) (ow : Bool) :
    (processJob sz attempt ow).removedFile = (processJob sz attempt ow).result.isOk ∧
    (processJob sz attempt ow).ackedTask = (processJob sz attempt ow).result.isOk := by
  have h := uploadLoop_removed_acked attempt 4 0 []
  cases ow with
  | false =>
    cases sz with
    | notFound =>
      constructor
      · show (uploadWithRetry attempt).removedFile =
          ((uploadWithRetry attempt).result.mapError WorkerErr.upload).isOk
        rw [isOk_mapError]
        exact h.1
      · show (uploadWithRetry attempt).ackedTask =
          ((uploadWithRetry attempt).result.mapError WorkerErr.upload).isOk
        rw [isOk_mapError]
        exact h.2
    | found n => exact ⟨rfl, rfl⟩
  | true =>
    constructor
    · show (uploadWithRetry attempt).removedFile =
        ((uploadWithRetry attempt).result.mapError WorkerErr.upload).isOk
      rw [isOk_mapError]
      exact h.1
    · show (uploadWithRetry attempt).ackedTask =
        ((uploadWithRetry attempt).result.mapError WorkerErr.upload).isOk
      rw [isOk_mapError]
      exact h.2

/-- C4: for every processed job, the staged file is removed and the job
acknowledged exactly when processing succeeded; on any fatal outcome
(existence conflict, non-transient error, retry exhaustion) the staged
file is not removed. -/
theorem c4_staged_file_cleanup (sz : ExistCheck)
    (attempt : Nat → Option UploadErr) (ow : Bool) :
    (processJob sz attempt ow).removedFile = (processJob sz attempt ow).result.isOk ∧
    (processJob sz attempt ow).ackedTask = (processJob sz attempt ow).result.isOk :=
  processJob_removed_acked sz attempt ow

/-- C5: one iteration of the polling loop terminates the worker exactly
when the dequeue came back empty with the shutdown signal set; an empty
dequeue without the signal keeps polling, and a dequeued job is always
processed (so the worker never exits while the queue hands it work). -/
theorem c5_poll_terminates_only_when_drained (d : Option Job) (f : Bool) :
    (pollStep d f = .terminate ↔ d = none ∧ f = true) ∧
    pollStep none false = .keepPolling ∧
    (∀ j, pollStep (some j) f = .runJob j) := by
  refine ⟨?_, rfl, fun j => rfl⟩
  cases d with
  | none =>
    cases f with
    | false => simp [pollStep]
    | true => simp [pollStep]
  | some j => simp [pollStep]

/-! ### Claim C6: drain behaviour at shutdown -/

/-- A job whose very first upload attempt meets a permanent (HTTP 403)
provider error: processing it crashes the worker at once. -/
def fatalFirstSpec : JobSpec :=
  ⟨.notFound, fun _ => some (.libcloud "403 Forbidden"), true⟩

/-- A job whose upload would succeed on the first attempt. -/
def droppedSpec : JobSpec :=
  ⟨.notFound, fun _ => none, true⟩

/-- Counterexample to C6: with a single worker, a queue holding a
fatally failing job followed by a perfectly uploadable one is not
drained — the second job is neither uploaded nor the cause of any
fatal error; it is silently left behind when the worker crashes. -/
theorem c6_counterexample :
    noJobSilentlyDropped [fatalFirstSpec, droppedSpec] = false ∧
    (processJobSpec droppedSpec).result.isOk = true ∧
    (processJobSpec droppedSpec).removedFile = true := by
  exact ⟨rfl, rfl, rfl⟩

/-- C6 (amended): after shutdown every enqueued job is either uploaded
with its staged file removed, or the cause of the worker's fatal
termination, or left unprocessed behind a job that crashed the worker;
in particular when no job fails fatally the drain uploads every job
and removes every staged file, dropping nothing. -/
theorem c6_amended_drain (jobs : List JobSpec) :
    ((∀ j ∈ jobs, (processJobSpec j).result.isOk = true) →
      drainLoop jobs = .drained (jobs.map processJobSpec) ∧
      ∀ j ∈ jobs, (processJobSpec j).removedFile = true) ∧
    (∀ oks f rem, drainLoop jobs = .crashed oks f rem →
      f.result.isOk = false ∧ f.removedFile = false) := by
  constructor
  · intro hall
    constructor
    · induction jobs with
      | nil => rfl
      | cons j rest ih =>
        have hj := hall j (List.mem_cons_self j rest)
        have hrest := ih (fun x hx => hall x (List.mem_cons_of_mem j hx))
        simp only [drainLoop, List.map_cons]
        cases hres : (processJobSpec j).result with
        | ok u => rw [hrest]
        | error e =>
          rw [hres] at hj
          simp [Except.isOk, Except.toBool] at hj
    · intro j hj
      have hok := hall j hj
      have hframe := processJob_removed_acked j.sizeQuery j.attempt j.overwrite
      rw [show (processJobSpec j).removedFile = (processJobSpec j).result.isOk
        from hframe.1, hok]
  · induction jobs with
    | nil => intro oks f rem h; cases h
    | cons j rest ih =>
      intro oks f rem h
      have hframe := processJob_removed_acked j.sizeQuery j.attempt j.overwrite
      simp only [drainLoop] at h
      cases hres : (processJobSpec j).result with
      | ok u =>
        rw [hres] at h
        cases hrest : drainLoop rest with
        | drained outs => rw [hrest] at h; cases h
        | crashed oks2 f2 rem2 =>
          rw [hrest] at h
          cases h
          exact ih oks2 f rem hrest
      | error e =>
        rw [hres] at h
        cases h
        refine ⟨?_, ?_⟩
        · rw [hres]; rfl
        · rw [show (processJobSpec j).removedFile = (processJobSpec j).result.isOk
            from hframe.1, hres]
          rfl

/-- Witness for C6 (amended): a queue holding only the uploadable job
drains completely. -/
theorem c6_amended_drain_witness :
    drainLoop [droppedSpec] = .drained ([droppedSpec].map processJobSpec) := by
  have h := (c6_amended_drain [droppedSpec]).1
  exact (h (by intro j hj; rw [List.mem_singleton] at hj; rw [hj]; rfl)).1

/-! ### Claim theorems C7 to C10 -/

/-- C7: when the filter accepts the artifact and the run name is set,
`log_file_artifact` succeeds, stages the artifact under the fresh name
inside the staging folder (a path not previously staged, given that
the `uuid4` draw is fresh), and appends exactly one job carrying that
path, the formatted object name and the given overwrite flag; and with
the run name set the call never fails, whatever the filter says. -/
theorem c7_submit_stages_and_enqueues (staging fresh fmt : String) (d : DistInfo)
    (rn artifact_name : String) (ow : Bool) (st : ControllerState)
    (hfresh : (staging ++ "/" ++ fresh) ∉ st.staged) :
    log_file_artifact true staging fresh fmt d (some rn) artifact_name ow st =
      .ok { staged := st.staged ++ [staging ++ "/" ++ fresh],
            queue := st.queue ++
              [⟨staging ++ "/" ++ fresh, formatKeyName fmt d artifact_name rn, ow⟩] } ∧
    (staging ++ "/" ++ fresh) ∉ st.staged ∧
    (∀ shl : Bool, ∃ r, log_file_artifact shl staging fresh fmt d (some rn)
      artifact_name ow st = .ok r) := by
  refine ⟨rfl, hfresh, fun shl => ?_⟩
  cases shl with
  | false => exact ⟨st, rfl⟩
  | true => exact ⟨_, rfl⟩

/-- Witness for C7: staging an artifact into an empty controller state. -/
theorem c7_submit_stages_and_enqueues_witness :
    log_file_artifact true "/tmp/stage" "u1" "{run_name}/{artifact_name}"
      ⟨0, 0, 1, 1, 0⟩ (some "run1") "a.txt" true ⟨[], []⟩ =
      .ok { staged := ["/tmp/stage" ++ "/" ++ "u1"],
            queue := [⟨"/tmp/stage" ++ "/" ++ "u1",
              formatKeyName "{run_name}/{artifact_name}" ⟨0, 0, 1, 1, 0⟩ "a.txt" "run1",
              true⟩] } := by
  have h := c7_submit_stages_and_enqueues "/tmp/stage" "u1" "{run_name}/{artifact_name}"
    ⟨0, 0, 1, 1, 0⟩ "run1" "a.txt" true ⟨[], []⟩ (by simp)
  simpa using h.1

/-- C8: the health check run at `batch_end` is a no-op exactly when
every worker is alive; `epoch_end` runs the same check; and as soon as
some worker is dead the check raises the crash error. -/
theorem c8_health_check (ws : List Bool) :
    (batch_end ws = .ok () ↔ ∀ b ∈ ws, b = true) ∧
    epoch_end ws = batch_end ws ∧
    ((∃ b ∈ ws, b = false) →
      batch_end ws = .error "Upload worker crashed. Please check the logs.") := by
  refine ⟨?_, rfl, ?_⟩
  · induction ws with
    | nil => simp [batch_end, _check_workers]
    | cons w rest ih =>
      cases w with
      | false => simp [batch_end, _check_workers]
      | true =>
        constructor
        · intro h b hb
          rcases List.mem_cons.mp hb with hb | hb
          · rw [hb]
          · exact (ih.mp h) b hb
        · intro h
          exact ih.mpr fun b hb => h b (List.mem_cons_of_mem _ hb)
  · intro hdead
    induction ws with
    | nil => simp at hdead
    | cons w rest ih =>
      cases w with
      | false => rfl
      | true =>
        obtain ⟨b, hb, hbf⟩ := hdead
        rcases List.mem_cons.mp hb with hb | hb
        · rw [hbf] at hb; cases hb
        · exact ih ⟨b, hb, hbf⟩

/-- Witness for C8: one live and one dead worker make the next
`batch_end` raise. -/
theorem c8_health_check_witness :
    batch_end [true, false] = .error "Upload worker crashed. Please check the logs." :=
  (c8_health_check [true, false]).2.2 ⟨false, by simp, rfl⟩

/-- Leading slashes never survive `lstrip`. -/
lemma head_dropWhile_slash_ne (l : List Char) :
    (l.dropWhile (fun c => c = '/')).head? ≠ some '/' := by
  induction l with
  | nil => simp
  | cons a t ih =>
    by_cases h : a = '/'
    · rw [List.dropWhile_cons_of_pos (by simp [h])]
      exact ih
    · rw [List.dropWhile_cons_of_neg (by simp [h])]
      simp [h]

/-- C9: `get_uri_for_artifact` with the run name set performs no
provider call at all (it is a plain function of its arguments) and
returns the identity `provider://container/` followed by the formatted
object name stripped of leading slashes — and the stripped name indeed
never starts with a slash. -/
theorem c9_uri_for_artifact (hp : ProviderHparams) (fmt : String) (d : DistInfo)
    (rn artifact_name : String) :
    get_uri_for_artifact hp fmt d (some rn) artifact_name =
      .ok (hp.provider ++ "://" ++ hp.container ++ "/" ++
        lstripSlashes (formatKeyName fmt d artifact_name rn)) ∧
    ∀ s : String, (lstripSlashes s).toList.head? ≠ some '/' := by
  refine ⟨rfl, fun s => ?_⟩
  exact head_dropWhile_slash_ne s.toList

/-- Witness for C9: the resolved URI of `a.txt` under run `run1` on an
S3 bucket. -/
theorem c9_uri_for_artifact_witness :
    get_uri_for_artifact ⟨"s3", "bucket"⟩ "{run_name}/{artifact_name}"
      ⟨0, 0, 1, 1, 0⟩ (some "run1") "a.txt" =
      .ok ("s3" ++ "://" ++ "bucket" ++ "/" ++
        lstripSlashes (formatKeyName "{run_name}/{artifact_name}"
          ⟨0, 0, 1, 1, 0⟩ "a.txt" "run1")) :=
  (c9_uri_for_artifact ⟨"s3", "bucket"⟩ "{run_name}/{artifact_name}"
    ⟨0, 0, 1, 1, 0⟩ "run1" "a.txt").1

/-- C10: `init` on a fresh controller always performs the validation
upload under the formatted name of `".credentials_validated_successfully"`
before any worker exists: a provider error there propagates out of
`init`, which then reports no spawned worker, while a successful `init`
spawns the configured number of workers and leaves the validation
object in the container. -/
theorem c10_init_validates_credentials (fmt : String) (d : DistInfo) (rn : String)
    (n : Nat) (container : List String) :
    (∀ e, init false fmt d rn n (some e) container = .error (.provider e)) ∧
    init false fmt d rn n none container =
      .ok (n, container ++
        [formatKeyName fmt d ".credentials_validated_successfully" rn]) ∧
    formatKeyName fmt d ".credentials_validated_successfully" rn ∈
      container ++ [formatKeyName fmt d ".credentials_validated_successfully" rn] := by
  exact ⟨fun e => rfl, rfl, List.mem_append_right container (List.mem_singleton.mpr rfl)⟩

end ObjectStoreLogger
